import Mathlib

/-!
Shallow embedding of the configuration-normalization core of calphy
(src/calphy/input.py) together with theorems settling the frozen claims.

Conventions used throughout:
* Python floats are modelled as rationals; Python int() truncation toward
  zero is modelled by pyInt.
* Python exceptions are modelled by Except String; the string records the
  kind of exception the interpreter raises.
* Private attributes of the pydantic model (names starting with an
  underscore in the source) become fields of explicit "derived state"
  structures; each pydantic model validator becomes a function from the
  raw field value(s) to Except of the derived state.
-/

namespace Calphy

/-- Python int() truncation toward zero on a rational (CPython truncates
the fractional part, it does not floor). -/
def pyInt (q : ℚ) : ℤ :=
  q.num.tdiv q.den

/-- Python str.join: joins a list of strings with a separator, producing
the empty string on an empty list. -/
def pyJoin (sep : String) : List String → String
  | [] => ""
  | [x] => x
  | x :: y :: xs => x ++ sep ++ pyJoin sep (y :: xs)

/-- Helper for pySplitWs: walks the characters accumulating the current
token (reversed); whitespace ends a token, runs of whitespace produce no
empty tokens, exactly like Python str.split() with no argument. -/
def pySplitWsAux : List Char → List Char → List (List Char)
  | [], acc => if acc = [] then [] else [acc.reverse]
  | c :: cs, acc =>
    if c.isWhitespace then
      if acc = [] then pySplitWsAux cs [] else acc.reverse :: pySplitWsAux cs []
    else
      pySplitWsAux cs (c :: acc)

/-- Python str.split() with no argument: split on runs of whitespace,
discarding empty tokens. -/
def pySplitWs (s : String) : List String :=
  (pySplitWsAux s.toList []).map (fun cs => String.mk cs)

/-- Helper for pySplitSlash: splits a character list on every slash,
keeping empty pieces, exactly like Python str.split with an explicit
separator. -/
def pySplitSlashAux : List Char → List Char → List (List Char)
  | [], acc => [acc.reverse]
  | c :: cs, acc =>
    if c = '/' then acc.reverse :: pySplitSlashAux cs [] else pySplitSlashAux cs (c :: acc)

/-- Python s.split on the single character slash. -/
def pySplitSlash (s : String) : List String :=
  (pySplitSlashAux s.toList []).map (fun cs => String.mk cs)

/-- Python s.split on slash followed by taking the last element: the part
of the string after the last slash (split always returns a nonempty list,
so the default is never used). -/
def pyLastComponent (s : String) : String :=
  (pySplitSlash s).getLastD ""

/-- Python list indexing l[i], including the negative-index wraparound;
none models an IndexError. -/
def pyGet {α : Type} (l : List α) (i : ℤ) : Option α :=
  if 0 ≤ i then l.get? i.toNat
  else if (-i).toNat ≤ l.length then l.get? (l.length - (-i).toNat)
  else none

/-- A Python loop that builds a list by appending f of each element,
aborting at the first raised exception (used to model the per-item loops
in the source; the order of effects matches the loop order). -/
def exMapM {α β : Type} (f : α → Except String β) : List α → Except String (List β)
  | [] => .ok []
  | a :: as =>
    match f a with
    | .error e => .error e
    | .ok b =>
      match exMapM f as with
      | .error e => .error e
      | .ok bs => .ok (b :: bs)

/-! ## Pressure validation (Calculation._validate_pressure, input.py lines 196-235)

The pydantic field type of pressure is
None | float | conlist(float, 1..2) | conlist(conlist(float, 3, 3), 1..2),
so the value reaching the validator has exactly one of the six shapes
below; any other raw shape is rejected by the field gate before the
validator runs. -/

/-- The six shapes a pressure value can have after the pydantic type gate. -/
inductive PressureVal : Type
  | none
  | scalar (p : ℚ)
  | list1 (p : ℚ)
  | list2 (p0 p1 : ℚ)
  | nested1 (px py pz : ℚ)
  | nested2 (p0x p0y p0z p1x p1y p1z : ℚ)
deriving DecidableEq, Repr

/-- The derived pressure state: private attributes pressure, pressure_stop,
iso and fix_lattice of the Calculation model. -/
structure PressureDerived : Type where
  pressure : Option ℚ
  pressure_stop : Option ℚ
  iso : Bool
  fix_lattice : Bool
deriving DecidableEq, Repr

/-- check_equal from the source: all three components equal. -/
def check_equal (x y z : ℚ) : Bool :=
  x = y ∧ y = z

/-- Embedding of Calculation._validate_pressure.  The branches for the
four list shapes read self.pressure_input, a name that is not an attribute
of the model (the private copy set two lines earlier is _pressure_input),
so in those branches the interpreter raises AttributeError and
construction of the record fails; in the two nested branches the equality
check runs first, so an unequal triple raises ValueError before the
attribute access. -/
def validate_pressure : PressureVal → Except String PressureDerived
  | .none => .ok ⟨none, none, true, true⟩
  | .scalar p => .ok ⟨some p, some p, true, false⟩
  | .list1 _ =>
      .error "AttributeError: Calculation object has no attribute pressure_input"
  | .list2 _ _ =>
      .error "AttributeError: Calculation object has no attribute pressure_input"
  | .nested1 px py pz =>
      if ¬ check_equal px py pz then .error "All pressure terms must be equal"
      else .error "AttributeError: Calculation object has no attribute pressure_input"
  | .nested2 p0x p0y p0z p1x p1y p1z =>
      if ¬ (check_equal p0x p0y p0z ∧ check_equal p1x p1y p1z) then
        .error "All pressure terms must be equal"
      else .error "AttributeError: Calculation object has no attribute pressure_input"

/-! ## Temperature validation (Calculation._validate_temperature, input.py lines 238-255) -/

/-- The shapes a temperature value can have after the pydantic type gate
(None | float | conlist(float, 1..2)). -/
inductive TempVal : Type
  | none
  | scalar (t : ℚ)
  | list1 (t : ℚ)
  | list2 (t0 t1 : ℚ)
deriving DecidableEq, Repr

/-- The derived temperature state: private attributes temperature,
temperature_stop and temperature_high of the Calculation model. -/
structure TempDerived : Type where
  temperature : Option ℚ
  temperature_stop : Option ℚ
  temperature_high : Option ℚ
deriving DecidableEq, Repr

/-- Embedding of Calculation._validate_temperature.  high0 is the prior
value of the private attribute temperature_high (always none at
construction: the model has no temperature_high field, so the private
default is never overridden before this validator runs).  The one- and
scalar-element branch reads np.atleast_1d(self.temperature) and works; the
two-element branch reads self.temperature_input, a name that is not an
attribute of the model (the private copy is _temperature_input), so the
interpreter raises AttributeError there. -/
def validate_temperature (v : TempVal) (high0 : Option ℚ) : Except String TempDerived :=
  match v with
  | .none => .ok ⟨none, none, high0⟩
  | .scalar t =>
      .ok ⟨some t, some t, if high0 = none then some (2 * t) else high0⟩
  | .list1 t =>
      .ok ⟨some t, some t, if high0 = none then some (2 * t) else high0⟩
  | .list2 _ _ =>
      .error "AttributeError: Calculation object has no attribute temperature_input"

/-! ## Switching-step resolution (Calculation._validate_time, input.py lines 277-284) -/

/-- The shapes n_switching_steps can have after the pydantic type gate
(int | conlist(int, 2, 2)); the field default is the pair 50000, 50000. -/
inductive SwitchVal : Type
  | scalar (n : ℤ)
  | pair (a b : ℤ)
deriving DecidableEq, Repr

/-- The derived switching-step state: private attributes
n_switching_steps (the forward count) and n_sweep_steps (the backward
count) of the Calculation model. -/
structure SwitchSteps : Type where
  n_switching_steps : ℤ
  n_sweep_steps : ℤ
deriving DecidableEq, Repr

/-- The private-attribute defaults: both counts start at 50000. -/
def defaultSwitchSteps : SwitchSteps := ⟨50000, 50000⟩

/-- Embedding of Calculation._validate_time.  The scalar branch assigns
only _n_sweep_steps; _n_switching_steps keeps its prior (default) value.
The list branch assigns _n_sweep_steps from index 1 and
_n_switching_steps from index 0. -/
def validate_time (v : SwitchVal) (st : SwitchSteps) : SwitchSteps :=
  match v with
  | .scalar n => { st with n_sweep_steps := n }
  | .pair a b => ⟨a, b⟩

/-! ## Pair-style splitting (Calculation._validate_pair_style, input.py lines 257-275) -/

/-- Embedding of the per-string body of the pair-style loop: the raw
string is split on whitespace, the first token becomes the name (an empty
split raises IndexError), and the remaining tokens joined by single
spaces become the options.  The source guards the join with the condition
that the raw string (not the token list) has length greater than one; for
a shorter raw string the options default to the empty string, which
coincides with the join of the (then necessarily empty) tail. -/
def splitPairStyle (ps : String) : Except String (String × String) :=
  match pySplitWs ps with
  | [] => .error "IndexError: list index out of range"
  | name :: rest => .ok (name, if ps.length > 1 then pyJoin " " rest else "")

/-- Embedding of Calculation._validate_pair_style: iterating over the
raw pair_style list (a None pair_style raises TypeError), building the
parallel name and option lists, and assigning the private option list
only when it is still unset. -/
def validate_pair_style (pair_style : Option (List String))
    (prevOptions : Option (List String)) :
    Except String (List String × Option (List String)) :=
  match pair_style with
  | none => .error "TypeError: NoneType object is not iterable"
  | some lst =>
    match exMapM splitPairStyle lst with
    | .error e => .error e
    | .ok pairs =>
      .ok (pairs.map Prod.fst,
           if prevOptions = none then some (pairs.map Prod.snd) else prevOptions)

/-! ## Identifier derivation (Calculation.create_identifier, input.py lines 365-399) -/

/-- The fields of a constructed calculation that create_identifier reads:
the mode, the derived private temperature and pressure start values, the
lattice string and the optional folder prefix (rendered here as
folder_pfx).  The temperature is taken as set, as in the source, where
int of the private temperature is applied unconditionally outside the
melting-temperature branch. -/
structure IdentCalc : Type where
  mode : String
  temperature : ℚ
  pressure : Option ℚ
  lattice : String
  folder_pfx : Option String
deriving DecidableEq, Repr

/-- Embedding of Calculation.create_identifier.  In melting-temperature
mode the three variable parts are the fixed strings tm, 0 and 0; in every
other mode the temperature and pressure starts are integer-truncated (an
absent pressure rendering as the literal None) and the lattice is reduced
to its final slash-separated component; the optional folder prefix is
prepended before the hyphen join. -/
def create_identifier (c : IdentCalc) : String :=
  let pfx := c.mode
  let parts : String × String × String :=
    if c.mode = "melting_temperature" then
      ("tm", toString (0 : ℤ), toString (0 : ℤ))
    else
      (pyLastComponent c.lattice,
       toString (pyInt c.temperature),
       match c.pressure with
       | none => "None"
       | some pr => toString (pyInt pr))
  match c.folder_pfx with
  | none => pyJoin "-" [pfx, parts.1, parts.2.1, parts.2.2]
  | some fp => pyJoin "-" [fp, pfx, parts.1, parts.2.1, parts.2.2]

/-! ## Folder creation (Calculation.create_folders, input.py lines 406-432)

The source calls shutil.rmtree and shutil.move, but the module imports
(input.py lines 24-39) never bind the name shutil, so evaluating either
call raises NameError.  The try block around the removal only catches
OSError, which NameError is not, and the rename fallback in the handler
dereferences shutil as well, so the NameError propagates out of
create_folders whenever the directory already exists.  When it does not
exist, the try block does nothing and os.mkdir creates a fresh empty
directory. -/

/-- The module-level names bound by the import statements of input.py
(lines 24-39). -/
def importedNames : List String :=
  ["Annotated", "Any", "Callable", "List", "ClassVar", "Optional",
   "BaseModel", "Field", "ValidationError", "model_validator", "conlist",
   "PrivateAttr", "AfterValidator", "BeforeValidator", "Len",
   "yaml", "np", "copy", "datetime", "itertools", "os", "warnings",
   "System", "structure_dict", "element_dict", "_make_crystal",
   "read", "write"]

/-- Outcome of create_folders: either the path of a freshly created empty
directory, or an escaped NameError naming the unbound identifier. -/
inductive FolderResult : Type
  | ok (path : String)
  | nameError (missing : String)
deriving DecidableEq, Repr

/-- Embedding of Calculation.create_folders on an abstract filesystem
state reduced to whether the target directory already exists.  The
existing-directory branch evaluates shutil.rmtree; since shutil is not
among the imported names, that lookup raises NameError, which the
except-OSError clause does not catch. -/
def create_folders (dirExists : Bool) (simfolder : String) : FolderResult :=
  if dirExists then
    if importedNames.contains "shutil" then
      FolderResult.ok simfolder
    else
      FolderResult.nameError "shutil"
  else
    FolderResult.ok simfolder

/-! ## Composition derivation (Calculation._validate_lattice, input.py lines 287-340)

The branch dispatch (known crystal prototype versus structure file) and
the structure construction itself are external collaborators; what is
embedded here is the composition bookkeeping each branch performs on the
per-atom species information of the resolved structure. -/

/-- The key list of a dictionary modelled as an association list. -/
def keys {α : Type} (d : List (String × α)) : List String :=
  d.map Prod.fst

/-- The count dictionary built from np.unique with return_counts over
the species list (np.unique sorts the distinct values; the dictionary
has the same keys and counts in any order, so the embedding keeps
first-occurrence order). -/
def concdict_counts (typelist : List String) : List (String × ℕ) :=
  typelist.dedup.map (fun t => (t, typelist.count t))

/-- The fraction dictionary: per-species count over the total count. -/
def concdict_frac (typelist : List String) : List (String × ℚ) :=
  typelist.dedup.map (fun t => ((t, (typelist.count t : ℚ) / (typelist.length : ℚ))))

/-- The composition state the prototype branch stores: private
attributes _composition (fractions), _composition_counts and _natoms. -/
structure CompositionInfo : Type where
  composition : List (String × ℚ)
  composition_counts : List (String × ℕ)
  natoms : ℕ
deriving Repr

/-- Embedding of the prototype branch of _validate_lattice (input.py
lines 303-310): the dictionaries are built from the species list of the
structure the resolver built, and no back-fill over the requested
element list is performed in this branch. -/
def prototypeComposition (species : List String) : CompositionInfo :=
  ⟨concdict_frac species, concdict_counts species, species.length⟩

/-- The zero back-fill loop of the file branch (input.py lines 333-336):
one pass over the requested elements; an element missing from the count
dictionary is appended with a zero entry to both dictionaries. -/
def backfillBoth (cf : List (String × ℕ) × List (String × ℚ)) :
    List String → List (String × ℕ) × List (String × ℚ)
  | [] => cf
  | el :: rest =>
    if el ∈ keys cf.1 then backfillBoth cf rest
    else backfillBoth (cf.1 ++ [(el, 0)], cf.2 ++ [(el, 0)]) rest

/-- Embedding of the composition derivation of the file branch
(input.py lines 326-338): LAMMPS type indices are mapped to element
symbols by Python list indexing (an out-of-range index raises
IndexError), the two dictionaries are built, and the requested elements
are zero back-filled.  The next line of the branch (line 339) reads the
local name structure, which is bound only in the prototype branch, so
the validator then raises NameError and no record is ever constructed
through this branch; the dictionaries modelled here are the ones derived
up to that point. -/
def fileCompositionDicts (element : List String) (types : List ℤ) :
    Except String (List (String × ℕ) × List (String × ℚ)) :=
  match exMapM (fun x =>
      match pyGet element (x - 1) with
      | some e => .ok e
      | none => .error "IndexError: list index out of range") types with
  | .error e => .error e
  | .ok typelist =>
    .ok (backfillBoth (concdict_counts typelist, concdict_frac typelist) element)

/-! ## Theorems for claims C1, C2, C5 -/

/-- C1: pressure normalization is claimed to classify the raw pressure
into six shapes and produce the documented tuple for each.  The absent
and scalar shapes do produce the documented tuples, but every list shape
crashes with an AttributeError because the validator reads
self.pressure_input instead of the private attribute _pressure_input, so
the lists 100, the pair 0 100, and the equal triples never yield the
documented tuples; an unequal triple still fails with the equality error.
This theorem evaluates the embedded validator on one input of each shape,
exhibiting the divergence from the claim. -/
theorem pressure_validator_behavior :
    validate_pressure .none = .ok ⟨none, none, true, true⟩ ∧
    validate_pressure (.scalar 100) = .ok ⟨some 100, some 100, true, false⟩ ∧
    validate_pressure (.list1 100) =
      .error "AttributeError: Calculation object has no attribute pressure_input" ∧
    validate_pressure (.list2 0 100) =
      .error "AttributeError: Calculation object has no attribute pressure_input" ∧
    validate_pressure (.nested1 100 100 100) =
      .error "AttributeError: Calculation object has no attribute pressure_input" ∧
    validate_pressure (.nested1 1 1 2) = .error "All pressure terms must be equal" ∧
    validate_pressure (.nested2 100 100 100 200 200 200) =
      .error "AttributeError: Calculation object has no attribute pressure_input" := by
  refine ⟨rfl, rfl, rfl, rfl, rfl, rfl, rfl⟩

/-- C2: temperature normalization is claimed to map a scalar t to the
pair t, t with high 2t, and a two-element input t0, t1 to t0, t1 with
high 2 t1.  The absent, scalar and one-element branches behave as
claimed, but the two-element branch crashes with an AttributeError
because it reads self.temperature_input instead of the private attribute
_temperature_input, so the input 300, 500 never yields 300, 500 with
high 1000.  This theorem evaluates the embedded validator on each shape. -/
theorem temperature_validator_behavior :
    validate_temperature .none none = .ok ⟨none, none, none⟩ ∧
    validate_temperature (.scalar 300) none = .ok ⟨some 300, some 300, some 600⟩ ∧
    validate_temperature (.list1 300) none = .ok ⟨some 300, some 300, some 600⟩ ∧
    validate_temperature (.list2 300 500) none =
      .error "AttributeError: Calculation object has no attribute temperature_input" := by
  refine ⟨rfl, ?_, ?_, rfl⟩ <;>
    · simp only [validate_temperature]
      norm_num

/-- C5 counterexample: the claim says a scalar switching-step input s
sets forward = backward = s, but the scalar branch only assigns the
backward (sweep) count, so with input 40000 the derived state is
50000, 40000 and not 40000, 40000. -/
theorem validate_time_scalar_counterexample :
    validate_time (.scalar 40000) defaultSwitchSteps ≠
      (⟨40000, 40000⟩ : SwitchSteps) := by
  decide

/-- C5 amended: a scalar input s sets only the backward (sweep) count to
s, leaving the forward count at its prior value (50000 by default), so
the claimed example 50000 to forward = backward = 50000 holds only
because the default equals 50000; a two-element input sets forward from
index 0 and backward from index 1 independently, as claimed. -/
theorem validate_time_resolution :
    (∀ (n : ℤ) (st : SwitchSteps),
      validate_time (.scalar n) st = ⟨st.n_switching_steps, n⟩) ∧
    (∀ (a b : ℤ) (st : SwitchSteps), validate_time (.pair a b) st = ⟨a, b⟩) ∧
    validate_time (.scalar 50000) defaultSwitchSteps = ⟨50000, 50000⟩ ∧
    validate_time (.pair 40000 60000) defaultSwitchSteps = ⟨40000, 60000⟩ := by
  refine ⟨fun n st => rfl, fun a b st => rfl, rfl, rfl⟩

/-- Auxiliary fact for the pair-style split: a raw string of length at
most one tokenizes to at most one whitespace-separated token, so the
source's length guard on the raw string cannot cut off any options. -/
theorem pySplitWs_short (s : String) (h : s.length ≤ 1) :
    ∀ t rest, pySplitWs s = t :: rest → rest = [] := by
  obtain ⟨cs⟩ := s
  intro t rest hs
  have hlen : cs.length ≤ 1 := h
  match cs, hlen, hs with
  | [], _, hs => simp [pySplitWs, pySplitWsAux] at hs
  | [c], _, hs =>
    by_cases hw : c.isWhitespace
    · simp [pySplitWs, pySplitWsAux, hw] at hs
    · simp [pySplitWs, pySplitWsAux, hw] at hs
      exact hs.2
  | c1 :: c2 :: tl, hlen, _ => simp at hlen

/-- C9: each raw pair-style string splits on whitespace into the first
token as name and the remaining tokens joined by single spaces as
options, the options being empty for a bare name; and the private option
list, once set, is not overwritten by a later validator run.  The first
two conjuncts evaluate the split on the documented examples, the third is
the general split law, and the fourth is the set-only-once law. -/
theorem pair_style_split_spec :
    splitPairStyle "eam/alloy potential.eam" = .ok ("eam/alloy", "potential.eam") ∧
    splitPairStyle "eam/alloy" = .ok ("eam/alloy", "") ∧
    (∀ (ps name : String) (rest : List String),
      pySplitWs ps = name :: rest →
      splitPairStyle ps = .ok (name, pyJoin " " rest)) ∧
    (∀ (lst v names : List String) (opts : Option (List String)),
      validate_pair_style (some lst) (some v) = .ok (names, opts) →
      opts = some v) := by
  refine ⟨rfl, rfl, ?_, ?_⟩
  · intro ps name rest h
    unfold splitPairStyle
    rw [h]
    by_cases hl : ps.length > 1
    · simp [hl]
    · have hr : rest = [] := pySplitWs_short ps (by omega) name rest h
      subst hr
      simp [hl, pyJoin]
  · intro lst v names opts h
    simp only [validate_pair_style] at h
    cases he : exMapM splitPairStyle lst with
    | error e =>
      rw [he] at h
      simp at h
    | ok pairs =>
      rw [he] at h
      simp at h
      exact h.2.symm

/-- C9 witness: the general split law applied at a concrete two-token
input, and the set-only-once law applied at a concrete prior value. -/
theorem pair_style_split_spec_witness :
    splitPairStyle "eam fs" = .ok ("eam", pyJoin " " ["fs"]) ∧
    (some ["old"] : Option (List String)) = some ["old"] := by
  refine ⟨pair_style_split_spec.2.2.1 "eam fs" "eam" ["fs"] (by decide), ?_⟩
  exact pair_style_split_spec.2.2.2 ["eam/alloy"] ["old"] ["eam/alloy"]
    (some ["old"]) (by rfl)

/-- C6: create_identifier is a pure function of the mode, the final
slash-separated component of the lattice, the integer-truncated
temperature and pressure starts and the folder prefix (first conjunct:
two records agreeing on those five values produce the same identifier);
in melting-temperature mode with no prefix the identifier is the fixed
string melting_temperature-tm-0-0; in any other mode an absent pressure
renders as the literal token None; and a set folder prefix is prepended
in front of the hyphen join. -/
theorem create_identifier_spec :
    (∀ a b : IdentCalc, a.mode = b.mode →
      pyLastComponent a.lattice = pyLastComponent b.lattice →
      pyInt a.temperature = pyInt b.temperature →
      Option.map pyInt a.pressure = Option.map pyInt b.pressure →
      a.folder_pfx = b.folder_pfx →
      create_identifier a = create_identifier b) ∧
    (∀ c : IdentCalc, c.mode = "melting_temperature" → c.folder_pfx = none →
      create_identifier c = "melting_temperature-tm-0-0") ∧
    (∀ c : IdentCalc, c.mode ≠ "melting_temperature" → c.pressure = none →
      c.folder_pfx = none →
      create_identifier c =
        pyJoin "-" [c.mode, pyLastComponent c.lattice,
                    toString (pyInt c.temperature), "None"]) ∧
    (∀ (c : IdentCalc) (fp : String),
      create_identifier { c with folder_pfx := some fp } =
        fp ++ "-" ++ create_identifier { c with folder_pfx := none }) := by
  refine ⟨?_, ?_, ?_, ?_⟩
  · intro a b hm hl ht hp hf
    have hps : (match a.pressure with
        | none => "None"
        | some pr => toString (pyInt pr)) =
        (match b.pressure with
        | none => "None"
        | some pr => toString (pyInt pr)) := by
      cases ha : a.pressure <;> cases hb : b.pressure <;>
        rw [ha, hb] at hp <;> simp_all
    simp only [create_identifier, hm, hl, ht, hf, hps]
  · intro c h hf
    simp [create_identifier, h, hf]
    rfl
  · intro c hne hp hf
    simp [create_identifier, hne, hp, hf]
  · intro c fp
    rfl

/-- C6 witness: two records with different lattice paths but the same
basename, mode, truncated temperature and pressure and absent prefix get
the same identifier; and the melting-temperature identifier at a concrete
record. -/
theorem create_identifier_spec_witness :
    create_identifier ⟨"fe", 300, some 0, "runs/fcc", none⟩ =
      create_identifier ⟨"fe", 300, some 0, "fcc", none⟩ ∧
    create_identifier ⟨"melting_temperature", 300, some 0, "fcc", none⟩ =
      "melting_temperature-tm-0-0" := by
  exact ⟨create_identifier_spec.1 _ _ rfl (by decide) rfl rfl rfl,
         create_identifier_spec.2.1 _ rfl rfl⟩

/-- C7: the claim says create_folders always yields a fresh empty
directory, removing or renaming a pre-existing one.  The name shutil is
not bound by the module imports, so the removal branch raises an
uncaught NameError whenever the directory already exists; only the
nonexisting-directory path completes and creates a fresh directory. -/
theorem create_folders_crashes_when_folder_exists :
    importedNames.contains "shutil" = false ∧
    create_folders true "fe-fcc-300-0" = FolderResult.nameError "shutil" ∧
    create_folders false "fe-fcc-300-0" = FolderResult.ok "fe-fcc-300-0" := by
  refine ⟨rfl, rfl, rfl⟩

/-- The key lists of the two freshly built dictionaries agree (both are
the deduplicated species list). -/
theorem keys_concdict_eq (tl : List String) :
    keys (concdict_counts tl) = keys (concdict_frac tl) := by
  simp [keys, concdict_counts, concdict_frac]

/-- The back-fill pass keeps the key lists of the two dictionaries
equal when they start equal. -/
theorem backfillBoth_keys_eq (l : List String) :
    ∀ cf : List (String × ℕ) × List (String × ℚ),
      keys cf.1 = keys cf.2 →
      keys (backfillBoth cf l).1 = keys (backfillBoth cf l).2 := by
  induction l with
  | nil => intro cf h; simpa [backfillBoth] using h
  | cons a rest ih =>
    intro cf h
    by_cases ha : a ∈ keys cf.1
    · simpa [backfillBoth, ha] using ih cf h
    · have h2 : keys (cf.1 ++ [(a, 0)], cf.2 ++ [(a, (0 : ℚ))]).1 =
          keys (cf.1 ++ [(a, 0)], cf.2 ++ [(a, (0 : ℚ))]).2 := by
        simp [keys] at h ⊢
        rw [h]
      simpa [backfillBoth, ha] using ih _ h2

/-- The back-fill pass never removes a key from the count dictionary. -/
theorem backfillBoth_mem_preserved (l : List String) :
    ∀ (cf : List (String × ℕ) × List (String × ℚ)) (el : String),
      el ∈ keys cf.1 → el ∈ keys (backfillBoth cf l).1 := by
  induction l with
  | nil => intro cf el h; simpa [backfillBoth] using h
  | cons a rest ih =>
    intro cf el h
    by_cases ha : a ∈ keys cf.1
    · simpa [backfillBoth, ha] using ih cf el h
    · have h2 : el ∈ keys (cf.1 ++ [(a, 0)]) := by
        simp [keys] at h ⊢
        exact Or.inl h
      simpa [backfillBoth, ha] using ih _ el h2

/-- After the back-fill pass every element of the processed list is a
key of the count dictionary. -/
theorem backfillBoth_mem_self (l : List String) :
    ∀ (cf : List (String × ℕ) × List (String × ℚ)) (el : String),
      el ∈ l → el ∈ keys (backfillBoth cf l).1 := by
  induction l with
  | nil => intro cf el h; cases h
  | cons a rest ih =>
    intro cf el h
    by_cases ha : a ∈ keys cf.1
    · rcases List.mem_cons.mp h with rfl | hr
      · simpa [backfillBoth, ha] using backfillBoth_mem_preserved rest cf el ha
      · simpa [backfillBoth, ha] using ih cf el hr
    · rcases List.mem_cons.mp h with rfl | hr
      · have h2 : el ∈ keys (cf.1 ++ [(el, 0)]) := by simp [keys]
        simpa [backfillBoth, ha] using
          backfillBoth_mem_preserved rest (cf.1 ++ [(el, 0)], cf.2 ++ [(el, (0 : ℚ))]) el h2
      · simpa [backfillBoth, ha] using ih _ el hr

/-- C8 counterexample: the claim asserts zero back-fill in both lattice
branches, but the prototype branch performs none.  With requested
elements Cu and Zn and a resolver-built structure whose four atoms are
all Cu, the derived count and fraction dictionaries of the prototype
branch have no entry for the requested element Zn. -/
theorem prototype_composition_missing_element :
    "Zn" ∈ ["Cu", "Zn"] ∧
    "Zn" ∉ keys (prototypeComposition ["Cu", "Cu", "Cu", "Cu"]).composition_counts ∧
    "Zn" ∉ keys (prototypeComposition ["Cu", "Cu", "Cu", "Cu"]).composition := by
  refine ⟨by decide, by decide, by decide⟩

/-- C8 amended: only the structure-file branch back-fills; whenever its
composition derivation succeeds, the derived count and fraction
dictionaries contain an entry for every requested element.  (The
prototype branch stores exactly the species present in the built
structure, as the counterexample shows.) -/
theorem file_branch_backfills_every_element :
    ∀ (element : List String) (types : List ℤ)
      (cf : List (String × ℕ) × List (String × ℚ)),
      fileCompositionDicts element types = .ok cf →
      ∀ el ∈ element, el ∈ keys cf.1 ∧ el ∈ keys cf.2 := by
  intro element types cf h el hel
  unfold fileCompositionDicts at h
  cases he : exMapM (fun x =>
      match pyGet element (x - 1) with
      | some e => .ok e
      | none => .error "IndexError: list index out of range") types with
  | error e => rw [he] at h; simp at h
  | ok typelist =>
    rw [he] at h
    simp at h
    subst h
    have hk : keys (concdict_counts typelist, concdict_frac typelist).1 =
        keys (concdict_counts typelist, concdict_frac typelist).2 :=
      keys_concdict_eq typelist
    refine ⟨backfillBoth_mem_self element _ el hel, ?_⟩
    rw [← backfillBoth_keys_eq element _ hk]
    exact backfillBoth_mem_self element _ el hel

/-- C8 witness: the amended back-fill law applied to the concrete file
branch input with elements Cu and Zn and a two-atom all-Cu structure. -/
theorem file_branch_backfills_every_element_witness :
    "Zn" ∈ keys (backfillBoth
      (concdict_counts ["Cu", "Cu"], concdict_frac ["Cu", "Cu"]) ["Cu", "Zn"]).1 := by
  exact (file_branch_backfills_every_element ["Cu", "Zn"] [1, 1]
    (backfillBoth (concdict_counts ["Cu", "Cu"], concdict_frac ["Cu", "Cu"]) ["Cu", "Zn"])
    rfl "Zn" (by decide)).1

/-! ## Legacy migration expansion (_convert_legacy_inputfile, input.py lines 477-550)

For each non-melting legacy entry the migrator builds lat_props (one
property record per lattice, pairing its lattice constant and reference
phase), dispatches on the mode to choose the combination list, and then
builds one current-format record per combination.  The top-level and
per-entry keys copied verbatim into every record do not depend on the
combination and are omitted from the embedded record. -/

/-- One lattice property record of the lat_props comprehension. -/
structure LatProp : Type where
  lattice : String
  lattice_constant : ℚ
  reference_phase : String
deriving DecidableEq, Repr

/-- The combination-dependent fields of one expanded current-format
record (input.py lines 536-540). -/
structure ExpandedCalc : Type where
  lattice : String
  lattice_constant : ℚ
  reference_phase : String
  pressure : ℚ
  temperature : ℚ
deriving DecidableEq, Repr

/-- One legacy calculation entry after the np.atleast_1d coercions of
input.py lines 498-505: pressure, temperature, lattice and
reference_phase as 1-d lists, lattice_constant as an optional list
(absent means a zero list of the lattice length is substituted). -/
structure LegacyEntry : Type where
  mode : String
  pressure : List ℚ
  temperature : List ℚ
  lattice : List String
  reference_phase : List String
  lattice_constant : Option (List ℚ)
deriving Repr

/-- A value the record-building loop passes to Python float(): either a
numpy scalar drawn by iterating a 1-d array, or a whole array (the
checked pair that ts/tscale/mts and pscale modes wrap as a single
combination element). -/
inductive PyNum : Type
  | scalar (q : ℚ)
  | arr (qs : List ℚ)
deriving DecidableEq, Repr

/-- Python float() as applied in the record-building loop: a numpy
scalar converts to itself; an array converts only when it has exactly
one element, and a longer array raises TypeError (only size-1 arrays
can be converted to Python scalars). -/
def pyFloat : PyNum → Except String ℚ
  | .scalar q => .ok q
  | .arr [q] => .ok q
  | .arr _ => .error "TypeError: only length-1 arrays can be converted to Python scalars"

/-- The lat_props comprehension (input.py line 507): one record per
index of the lattice list; when lattice_constant is absent a zero list
of the lattice length is used (line 505); an index beyond the
reference_phase or lattice_constant list raises IndexError.  The loop
index is drawn from range of the lattice length, so plain nonnegative
indexing applies. -/
def mkLatProps (e : LegacyEntry) : Except String (List LatProp) :=
  let lc := e.lattice_constant.getD (e.lattice.map fun _ => (0 : ℚ))
  exMapM (fun x =>
      match e.lattice.get? x, lc.get? x, e.reference_phase.get? x with
      | some l, some c, some r => .ok ⟨l, c, r⟩
      | _, _, _ => .error "IndexError: list index out of range")
    (List.range e.lattice.length)

/-- itertools.product over three lists, the rightmost factor varying
fastest, as a flat list of triples. -/
def prod3 {α β γ : Type} (ls : List α) (ps : List β) (ts : List γ) : List (α × β × γ) :=
  ls.flatMap (fun l => ps.flatMap (fun p => ts.map (fun t => (l, p, t))))

/-- Embedding of the per-entry expansion of _convert_legacy_inputfile
for the non-melting modes (input.py lines 497-541).  fe, alchemy and
composition_scaling take the full product of lat_props, pressure and
temperature; ts, tscale and mts require exactly two temperature values
and wrap the whole pair as the only temperature combination element;
pscale does the symmetric thing for pressure; any other mode leaves the
local name combos unbound and the record loop raises NameError.  Each
combination yields one record, its pressure slot and then its
temperature slot passed through float(). -/
def expandEntry (e : LegacyEntry) : Except String (List ExpandedCalc) :=
  match mkLatProps e with
  | .error err => .error err
  | .ok lps =>
    match (if e.mode = "fe" ∨ e.mode = "alchemy" ∨ e.mode = "composition_scaling" then
        Except.ok (prod3 lps (e.pressure.map PyNum.scalar) (e.temperature.map PyNum.scalar))
      else if e.mode = "ts" ∨ e.mode = "tscale" ∨ e.mode = "mts" then
        if e.temperature.length ≠ 2 then
          Except.error "ts/tscale mode needs 2 temperature values"
        else
          Except.ok (prod3 lps (e.pressure.map PyNum.scalar) [PyNum.arr e.temperature])
      else if e.mode = "pscale" then
        if e.pressure.length ≠ 2 then
          Except.error "pscale mode needs 2 pressure values"
        else
          Except.ok (prod3 lps [PyNum.arr e.pressure] (e.temperature.map PyNum.scalar))
      else
        (Except.error "NameError: name combos is not defined" :
          Except String (List (LatProp × PyNum × PyNum)))) with
    | .error err => .error err
    | .ok combos =>
      exMapM (fun c =>
          match pyFloat c.2.1 with
          | .error err => .error err
          | .ok p =>
            match pyFloat c.2.2 with
            | .error err => .error err
            | .ok t => .ok ⟨c.1.lattice, c.1.lattice_constant, c.1.reference_phase, p, t⟩)
        combos

/-- The length of a successful expansion, none on failure (used to state
the record-count law without an existential). -/
def exLength {α : Type} : Except String (List α) → Option ℕ
  | .ok l => some l.length
  | .error _ => none

/-- A successful element-wise loop preserves the list length. -/
theorem exMapM_ok_length {α β : Type} (f : α → Except String β) :
    ∀ (l : List α) (r : List β), exMapM f l = .ok r → r.length = l.length := by
  intro l
  induction l with
  | nil =>
    intro r h
    simp only [exMapM] at h
    cases h
    rfl
  | cons a as ih =>
    intro r h
    simp only [exMapM] at h
    cases hf : f a with
    | error e => rw [hf] at h; simp at h
    | ok b =>
      rw [hf] at h
      cases hm : exMapM f as with
      | error e => rw [hm] at h; simp at h
      | ok bs =>
        rw [hm] at h
        simp at h
        subst h
        simp [ih bs hm]

/-- The element-wise loop succeeds when every step succeeds. -/
theorem exMapM_ok_of_forall {α β : Type} (f : α → Except String β) :
    ∀ l : List α, (∀ a ∈ l, ∃ b, f a = .ok b) → ∃ r, exMapM f l = .ok r := by
  intro l
  induction l with
  | nil => intro _; exact ⟨[], rfl⟩
  | cons a as ih =>
    intro h
    obtain ⟨b, hb⟩ := h a (List.mem_cons_self a as)
    obtain ⟨bs, hbs⟩ := ih (fun x hx => h x (List.mem_cons_of_mem a hx))
    exact ⟨b :: bs, by simp only [exMapM]; rw [hb, hbs]⟩

/-- Length of one layer of the product: a bind of maps. -/
theorem bind_map_length {α β γ : Type} (ps : List β) (ts : List γ) (f : β → γ → α) :
    (ps.flatMap fun p => ts.map (f p)).length = ps.length * ts.length := by
  induction ps with
  | nil => simp
  | cons p ps ih =>
    simp only [List.flatMap_cons, List.length_append, List.length_map, List.length_cons, ih]
    ring

/-- The product of three lists has the product of the lengths. -/
theorem prod3_length {α β γ : Type} (ls : List α) (ps : List β) (ts : List γ) :
    (prod3 ls ps ts).length = ls.length * ps.length * ts.length := by
  induction ls with
  | nil => simp [prod3]
  | cons l ls ih =>
    have h1 : prod3 (l :: ls) ps ts =
        (ps.flatMap fun p => ts.map fun t => (l, p, t)) ++ prod3 ls ps ts := by
      simp [prod3]
    rw [h1, List.length_append, bind_map_length ps ts (fun p t => (l, p, t)), ih,
        List.length_cons]
    ring

/-- Membership in the triple product projects to membership in the
factors. -/
theorem prod3_mem {α β γ : Type} {ls : List α} {ps : List β} {ts : List γ}
    {c : α × β × γ} (h : c ∈ prod3 ls ps ts) : c.2.1 ∈ ps ∧ c.2.2 ∈ ts := by
  simp only [prod3, List.mem_flatMap, List.mem_map] at h
  obtain ⟨l, _, p, hp, t, ht, hc⟩ := h
  subst hc
  exact ⟨hp, ht⟩

/-- C3: for a ts legacy entry the arity check is enforced as claimed
(a temperature list of length other than two fails with the arity
error), but with exactly two values the migration does not produce one
record per lattice-pressure pair carrying the pair: the record builder
passes the kept two-element pair to float(), which raises TypeError, so
the whole conversion fails instead; pscale behaves symmetrically on
pressure.  Evaluated on concrete single-lattice entries. -/
theorem ts_mode_migration_behavior :
    expandEntry ⟨"ts", [0], [300, 500], ["fcc"], ["solid"], none⟩ =
      .error "TypeError: only length-1 arrays can be converted to Python scalars" ∧
    expandEntry ⟨"ts", [0], [300], ["fcc"], ["solid"], none⟩ =
      .error "ts/tscale mode needs 2 temperature values" ∧
    expandEntry ⟨"pscale", [0, 100], [300], ["fcc"], ["solid"], none⟩ =
      .error "TypeError: only length-1 arrays can be converted to Python scalars" ∧
    expandEntry ⟨"pscale", [0], [300], ["fcc"], ["solid"], none⟩ =
      .error "pscale mode needs 2 pressure values" := by
  refine ⟨rfl, rfl, rfl, rfl⟩

/-- C4: a legacy fe, alchemy or composition_scaling entry whose
reference_phase and lattice_constant lists match the lattice list
expands fully: the expansion succeeds and produces exactly one record
per lattice-pressure-temperature triple, so its length is the product
of the three list lengths. -/
theorem fe_mode_full_expansion :
    ∀ e : LegacyEntry,
      (e.mode = "fe" ∨ e.mode = "alchemy" ∨ e.mode = "composition_scaling") →
      e.reference_phase.length = e.lattice.length →
      (e.lattice_constant = none ∨
        ∃ lc, e.lattice_constant = some lc ∧ lc.length = e.lattice.length) →
      exLength (expandEntry e) =
        some (e.lattice.length * e.pressure.length * e.temperature.length) := by
  intro e hm hr hlc
  have hlcl : (e.lattice_constant.getD (e.lattice.map fun _ => (0 : ℚ))).length =
      e.lattice.length := by
    rcases hlc with h | ⟨lc, h, hl⟩ <;> simp [h]
    exact hl
  have hstep : ∀ x ∈ List.range e.lattice.length, ∃ b,
      (fun x =>
        match e.lattice.get? x,
          (e.lattice_constant.getD (e.lattice.map fun _ => (0 : ℚ))).get? x,
          e.reference_phase.get? x with
        | some l, some c, some r => Except.ok (⟨l, c, r⟩ : LatProp)
        | _, _, _ =>
          (Except.error "IndexError: list index out of range" :
            Except String LatProp)) x = .ok b := by
    intro x hx
    rw [List.mem_range] at hx
    cases h1 : e.lattice.get? x with
    | none =>
      have := List.get?_eq_none.mp h1
      omega
    | some l =>
      cases h2 : (e.lattice_constant.getD (e.lattice.map fun _ => (0 : ℚ))).get? x with
      | none =>
        have := List.get?_eq_none.mp h2
        omega
      | some c =>
        cases h3 : e.reference_phase.get? x with
        | none =>
          have := List.get?_eq_none.mp h3
          omega
        | some rp =>
          refine ⟨⟨l, c, rp⟩, ?_⟩
          simp only [h1, h2, h3]
  obtain ⟨lps, hlps⟩ := exMapM_ok_of_forall _ (List.range e.lattice.length) hstep
  have hmk : mkLatProps e = .ok lps := by
    simpa [mkLatProps] using hlps
  have hlpslen : lps.length = e.lattice.length := by
    have := exMapM_ok_length _ _ _ hlps
    simpa using this
  have hbuild : ∀ c ∈ prod3 lps (e.pressure.map PyNum.scalar)
      (e.temperature.map PyNum.scalar), ∃ b,
      (fun (c : LatProp × PyNum × PyNum) =>
        match pyFloat c.2.1 with
        | .error err => (Except.error err : Except String ExpandedCalc)
        | .ok p =>
          match pyFloat c.2.2 with
          | .error err => .error err
          | .ok t =>
            .ok ⟨c.1.lattice, c.1.lattice_constant, c.1.reference_phase, p, t⟩) c =
        .ok b := by
    intro c hc
    obtain ⟨hp, ht⟩ := prod3_mem hc
    obtain ⟨p, _, hpe⟩ := List.mem_map.mp hp
    obtain ⟨t, _, hte⟩ := List.mem_map.mp ht
    refine ⟨⟨c.1.lattice, c.1.lattice_constant, c.1.reference_phase, p, t⟩, ?_⟩
    simp only [← hpe, ← hte, pyFloat]
  obtain ⟨recs, hrecs⟩ := exMapM_ok_of_forall _ _ hbuild
  have hlen : recs.length = e.lattice.length * e.pressure.length * e.temperature.length := by
    have h1 := exMapM_ok_length _ _ _ hrecs
    rw [prod3_length, hlpslen, List.length_map, List.length_map] at h1
    exact h1
  simp [expandEntry, hmk, hm, hrecs, exLength, hlen]

/-- C4 witness: the full-expansion law applied to a concrete fe entry
with two lattices, two pressures and three temperatures, producing
exactly twelve records. -/
theorem fe_mode_full_expansion_witness :
    exLength (expandEntry ⟨"fe", [0, 100], [300, 400, 500], ["fcc", "bcc"],
      ["solid", "solid"], none⟩) = some 12 := by
  have h := fe_mode_full_expansion
    ⟨"fe", [0, 100], [300, 400, 500], ["fcc", "bcc"], ["solid", "solid"], none⟩
    (Or.inl rfl) (by decide) (Or.inl rfl)
  simpa using h

/-! ## The construction pipeline (Calculation model validators, input.py lines 113-340)

The element, mass, pair_style and lattice fields are declared with
default None and the defaults are not passed through the field
validators, so omitting a field leaves None in place; the model
validators then apply len, iteration and lower to these fields
unconditionally. -/

/-- The raw field values of a Calculation construction that the claims
about the pipeline need: the four None-defaulted fields the validators
dereference unconditionally, and the shaped pressure, temperature and
switching-step values. -/
structure RawCalc : Type where
  element : Option (List String)
  mass : Option (List ℚ)
  pressure : PressureVal
  temperature : TempVal
  pair_style : Option (List String)
  n_switching_steps : SwitchVal
  lattice : Option String

/-- The derived state of a successfully constructed record. -/
structure NormCalc : Type where
  element : List String
  mass : List ℚ
  n_elements : ℕ
  pressureDerived : PressureDerived
  tempDerived : TempDerived
  pair_style : List String
  pair_style_options : Option (List String)
  switchSteps : SwitchSteps
  lattice : String

/-- Embedding of Calculation._validate_lengths (input.py lines 185-189):
len is applied to element and then to mass, and len of None raises
TypeError, so the check fails whenever either field was omitted. -/
def validate_lengths (element : Option (List String)) (mass : Option (List ℚ)) :
    Except String (List String × List ℚ) :=
  match element with
  | none => .error "TypeError: object of type NoneType has no len"
  | some el =>
    match mass with
    | none => .error "TypeError: object of type NoneType has no len"
    | some ms =>
      if el.length = ms.length then .ok (el, ms)
      else .error "mass and elements should have same length"

/-- The validation pipeline run at construction, chaining the model
validators in definition order.  resolveLattice abstracts the body of
_validate_lattice beyond its first access (the structure_dict dispatch
and the external structure resolution), so the pipeline theorems hold
for every behavior of that external part; a None lattice raises
AttributeError at self.lattice.lower() before that part is reached.
The private prior values fed to the temperature, pair-style and
switching-step validators are their declared defaults (none, none and
50000, 50000). -/
def normalize (resolveLattice : String → Except String Unit) (r : RawCalc) :
    Except String NormCalc :=
  match validate_lengths r.element r.mass with
  | .error e => .error e
  | .ok (el, ms) =>
    match validate_pressure r.pressure with
    | .error e => .error e
    | .ok pd =>
      match validate_temperature r.temperature none with
      | .error e => .error e
      | .ok td =>
        match validate_pair_style r.pair_style none with
        | .error e => .error e
        | .ok (ps, pso) =>
          let ss := validate_time r.n_switching_steps defaultSwitchSteps
          match r.lattice with
          | none => .error "AttributeError: NoneType object has no attribute lower"
          | some lat =>
            match resolveLattice lat with
            | .error e => .error e
            | .ok _ => .ok ⟨el, ms, el.length, pd, td, ps, pso, ss, lat⟩

/-- Whether a construction attempt succeeded. -/
def constructionSucceeds {α : Type} : Except String α → Bool
  | .ok _ => true
  | .error _ => false

/-- C10: although element, mass, pair_style and lattice all default to
None, the validators apply len, iteration and lower to them
unconditionally, so every construction omitting any one of the four
fails, whatever the external lattice resolver does: there is no valid
all-defaults record at the public interface. -/
theorem no_all_defaults_record :
    ∀ (resolveLattice : String → Except String Unit) (r : RawCalc),
      r.element = none ∨ r.mass = none ∨ r.pair_style = none ∨ r.lattice = none →
      constructionSucceeds (normalize resolveLattice r) = false := by
  intro res r h
  rcases h with he | hms | hps | hlat
  · simp [normalize, validate_lengths, he, constructionSucceeds]
  · cases hel : r.element with
    | none => simp [normalize, validate_lengths, hel, constructionSucceeds]
    | some el => simp [normalize, validate_lengths, hel, hms, constructionSucceeds]
  · cases hvl : validate_lengths r.element r.mass with
    | error e => simp [normalize, hvl, constructionSucceeds]
    | ok p =>
      obtain ⟨el, ms⟩ := p
      cases hpr : validate_pressure r.pressure with
      | error e => simp [normalize, hvl, hpr, constructionSucceeds]
      | ok pd =>
        cases htd : validate_temperature r.temperature none with
        | error e => simp [normalize, hvl, hpr, htd, constructionSucceeds]
        | ok td =>
          simp [normalize, hvl, hpr, htd, validate_pair_style, hps,
                constructionSucceeds]
  · cases hvl : validate_lengths r.element r.mass with
    | error e => simp [normalize, hvl, constructionSucceeds]
    | ok p =>
      obtain ⟨el, ms⟩ := p
      cases hpr : validate_pressure r.pressure with
      | error e => simp [normalize, hvl, hpr, constructionSucceeds]
      | ok pd =>
        cases htd : validate_temperature r.temperature none with
        | error e => simp [normalize, hvl, hpr, htd, constructionSucceeds]
        | ok td =>
          cases hpsv : validate_pair_style r.pair_style none with
          | error e =>
            simp [normalize, hvl, hpr, htd, hpsv, constructionSucceeds]
          | ok q =>
            obtain ⟨ps, pso⟩ := q
            simp [normalize, hvl, hpr, htd, hpsv, hlat, constructionSucceeds]

/-- C10 witness: the all-defaults construction (every optional field
omitted) fails even under a resolver that accepts every lattice. -/
theorem no_all_defaults_record_witness :
    constructionSucceeds (normalize (fun _ => .ok ())
      ⟨none, none, .none, .none, none, .pair 50000 50000, none⟩) = false := by
  exact no_all_defaults_record (fun _ => .ok ())
    ⟨none, none, .none, .none, none, .pair 50000 50000, none⟩ (Or.inl rfl)

end Calphy
